import Mathlib

/-!
Verification of the ViralPod AI media pipeline (src/main.py) against its
natural-language specification.  Each Python function that the claims touch is
embedded as a pure Lean function; external effects (the remote file-state
service, the HTTP layer, the structured-generation endpoint, the stream reader)
are passed in as explicit oracle functions, so that a run of the pipeline is a
deterministic function of those oracles.
-/

namespace ViralPod

/-! ### Remote processing client (main.py, `upload_to_gemini_turbo`, lines 201-213)

The remote file state as re-queried from the service.  The Python code compares
`file.state.name` against the strings "PROCESSING" and "FAILED". -/

inductive FileState where
  | PROCESSING
  | ACTIVE
  | FAILED
deriving DecidableEq

/-- The sequence of remote state observations is an oracle `obs : Nat → FileState`:
`obs 0` is the state on the handle returned by the initial upload call, and
`obs (i+1)` is the state seen by the i-th re-query (`genai.get_file`, line 207).

`pollLoop obs fuel i` runs the `while file.state.name == "PROCESSING"` loop of
lines 204-207 starting from observation index `i`.  Each loop iteration sleeps
0.5 s and re-queries, so on `some (n, s)` the loop performed exactly `n` waits
and exited with state `s`.  The Python loop has no bound of its own; `fuel`
only truncates the embedding, and `none` means the loop was still running after
`fuel` checks. -/
def pollLoop (obs : Nat → FileState) : Nat → Nat → Option (Nat × FileState)
  | 0, _ => none
  | fuel + 1, i =>
    if obs i = FileState.PROCESSING then pollLoop obs fuel (i + 1)
    else some (i, obs i)

/-- The polling loop terminates on the observation sequence `obs`:
some finite amount of fuel suffices for it to exit. -/
def loopTerminates (obs : Nat → FileState) : Prop :=
  ∃ fuel, (pollLoop obs fuel 0).isSome

def failedMsg : String := "Neural Engine could not process this video format."

/-- `upload_to_gemini_turbo` (lines 201-213) after the upload call: run the
polling loop, then `raise ValueError(...)` when the terminal state is FAILED
(lines 211-212), else return the file handle.  The returned `Nat` is the number
of fixed-interval waits performed, identifying which observation the returned
handle came from; `none` means the loop was still polling after `fuel` checks. -/
def upload_to_gemini_turbo (obs : Nat → FileState) (fuel : Nat) :
    Option (Except String Nat) :=
  match pollLoop obs fuel 0 with
  | none => none
  | some (n, s) =>
    if s = FileState.FAILED then some (Except.error failedMsg)
    else some (Except.ok n)

/-- The observation sequence of Scenario D: Processing, Processing, Active. -/
def obsD : Nat → FileState :=
  fun n => if n < 2 then FileState.PROCESSING else FileState.ACTIVE

/-- On the everywhere-PROCESSING observation sequence the loop never exits,
whatever the fuel. -/
theorem pollLoop_const_processing (fuel i : Nat) :
    pollLoop (fun _ => FileState.PROCESSING) fuel i = none := by
  induction fuel generalizing i with
  | zero => rfl
  | succ n ih => simpa [pollLoop] using ih (i + 1)

/-- If observation `n` (counting from the upload response) is not PROCESSING,
the loop exits within `n + 1` checks. -/
theorem pollLoop_exits (obs : Nat → FileState) (n : Nat) :
    ∀ i, obs (i + n) ≠ FileState.PROCESSING →
      (pollLoop obs (n + 1) i).isSome = true := by
  induction n with
  | zero =>
    intro i h
    simp only [pollLoop]
    rw [if_neg (by simpa using h)]
    rfl
  | succ m ih =>
    intro i h
    by_cases hp : obs i = FileState.PROCESSING
    · simp only [pollLoop, if_pos hp]
      exact ih (i + 1) (by
        have : i + 1 + m = i + (m + 1) := by omega
        rw [this]; exact h)
    · simp only [pollLoop, if_neg hp]
      rfl

/-- C4, counterexample: on the observation sequence that stays PROCESSING
forever, the polling loop of `upload_to_gemini_turbo` never terminates — there
is no overall timeout bounding it, contradicting the claim that the loop
terminates on every sequence of remote state observations. -/
theorem C4_counterexample : ¬ loopTerminates (fun _ => FileState.PROCESSING) := by
  rintro ⟨fuel, h⟩
  rw [pollLoop_const_processing fuel 0] at h
  exact Bool.noConfusion h

/-- C4, amended: the polling loop is not bounded by any timeout; it terminates
exactly when some observed remote state leaves PROCESSING.  Whenever some
observation `n` is not PROCESSING, the loop terminates (and an
everywhere-PROCESSING sequence makes it run forever). -/
theorem C4_loop_terminates_iff_state_leaves_processing
    (obs : Nat → FileState) (n : Nat) (h : obs n ≠ FileState.PROCESSING) :
    loopTerminates obs :=
  ⟨n + 1, pollLoop_exits obs n 0 (by simpa using h)⟩

/-- C4 witness: the amended theorem applied to Scenario D's observation
sequence, whose observation 2 is ACTIVE. -/
theorem C4_witness : loopTerminates obsD :=
  C4_loop_terminates_iff_state_leaves_processing obsD 2 (by decide)

/-- C5: on the remote state sequence [PROCESSING, PROCESSING, ACTIVE] the
polling loop performs exactly 2 fixed-interval waits (one sleep per re-query)
and `upload_to_gemini_turbo` returns the handle of observation 2 with no
error raised. -/
theorem C5_two_waits_then_handle :
    pollLoop obsD 3 0 = some (2, FileState.ACTIVE) ∧
      upload_to_gemini_turbo obsD 3 = some (Except.ok 2) := by
  constructor <;> rfl

/-! ### Media normalizer (main.py, `convert_to_audio_optimized`, lines 153-165)

File paths are modelled as lists of characters.  The conversion performed by
`AudioFileClip(...).write_audiofile(...)` is an external effect; whether it
succeeds on a given input path is an oracle `conv : List Char → Bool` (Python
catches every exception of the body and falls back to returning the input). -/

def mp3Ext : List Char := ".mp3".toList
def m4aExt : List Char := ".m4a".toList
def wavExt : List Char := ".wav".toList

/-- The accepted-audio-container test of line 156:
`str(input_path).endswith((".mp3", ".m4a", ".wav"))`. -/
def isAudioPath (p : List Char) : Bool :=
  mp3Ext.isSuffixOf p || m4aExt.isSuffixOf p || wavExt.isSuffixOf p

/-- `str(input_path).rsplit(".", 1)[0]` (line 155): everything before the last
dot, or the whole string when there is no dot. -/
def stripLastExt (p : List Char) : List Char :=
  match p.reverse.dropWhile (fun c => c != '.') with
  | [] => p
  | _ :: rest => rest.reverse

/-- `convert_to_audio_optimized` (lines 153-165): already-audio inputs are
returned unchanged; otherwise the audio track is re-encoded to
`<base>.mp3` when conversion succeeds (the original is deleted and the new
path returned), and on any exception the original path is returned unchanged
(lines 164-165). -/
def convert_to_audio_optimized (conv : List Char → Bool) (input : List Char) :
    List Char :=
  let output := stripLastExt input ++ mp3Ext
  if isAudioPath input then input
  else if conv input then output else input

/-- Anything of the form `base ++ ".mp3"` passes the audio-container test. -/
theorem isAudioPath_append_mp3 (base : List Char) :
    isAudioPath (base ++ mp3Ext) = true := by
  have h : mp3Ext.isSuffixOf (base ++ mp3Ext) = true := by
    rw [List.isSuffixOf_iff_suffix]
    exact List.suffix_append base mp3Ext
  simp [isAudioPath, h]

def mp4InputPath : List Char := "video.mp4".toList

/-- C3, counterexample: when the input is the acquired file `video.mp4` and
the conversion step fails (raises), `convert_to_audio_optimized` hands the
original non-audio `.mp4` path onward, so the artifact reaching the upload
step (line 336 then line 342 of `main`) is not a supported audio container. -/
theorem C3_counterexample :
    isAudioPath (convert_to_audio_optimized (fun _ => false) mp4InputPath) = false := by
  decide

/-- C3, amended: the invariant holds only when the input is already an accepted
audio container or the conversion step succeeds; in those cases the artifact
handed to the upload step is mp3/m4a/wav.  (On conversion failure the original
file, possibly a non-audio container, is passed through unchanged.) -/
theorem C3_audio_invariant_on_success (conv : List Char → Bool) (p : List Char)
    (h : isAudioPath p = true ∨ conv p = true) :
    isAudioPath (convert_to_audio_optimized conv p) = true := by
  rcases h with h | h
  · simp [convert_to_audio_optimized, h]
  · by_cases ha : isAudioPath p = true
    · simp [convert_to_audio_optimized, ha]
    · simp only [convert_to_audio_optimized, Bool.not_eq_true] at ha ⊢
      rw [if_neg (by simp [ha]), if_pos h]
      exact isAudioPath_append_mp3 (stripLastExt p)

/-- C3 witness: the amended invariant at the concrete input `video.mp4` with a
succeeding conversion step. -/
theorem C3_witness :
    isAudioPath (convert_to_audio_optimized (fun _ => true) mp4InputPath) = true :=
  C3_audio_invariant_on_success (fun _ => true) mp4InputPath (Or.inr rfl)

/-- C8: `convert_to_audio_optimized` is idempotent: for every input path and
every (deterministic) conversion outcome, applying it to its own output
returns the output unchanged — an output that is an accepted audio container
short-circuits, and a failure output coincides with the input. -/
theorem C8_normalize_idempotent (conv : List Char → Bool) (p : List Char) :
    convert_to_audio_optimized conv (convert_to_audio_optimized conv p) =
      convert_to_audio_optimized conv p := by
  by_cases ha : isAudioPath p = true
  · simp [convert_to_audio_optimized, ha]
  · by_cases hc : conv p = true
    · have hout := isAudioPath_append_mp3 (stripLastExt p)
      simp [convert_to_audio_optimized, ha, hc, hout]
    · simp [convert_to_audio_optimized, ha, hc]

/-! ### Chunked local persistence (main.py, `save_uploaded_chunked`, lines 191-199)

The uploaded byte stream is modelled by the number of bytes it still has to
deliver: `uploaded_file.read(n)` returns `min n remaining` bytes, and the loop
breaks on an empty read.  `saveChunks fuel remaining` returns the pair
(number of chunk writes performed, total bytes written); the Python loop always
terminates because every non-final read is positive, so any fuel past the
number of reads is inert. -/

def CHUNK_10M : Nat := 10 * 1024 * 1024

def saveChunks : Nat → Nat → Nat × Nat
  | 0, _ => (0, 0)
  | fuel + 1, remaining =>
    let chunk := min CHUNK_10M remaining
    if chunk = 0 then (0, 0)
    else
      let rest := saveChunks fuel (remaining - chunk)
      (rest.1 + 1, rest.2 + chunk)

/-- `save_uploaded_chunked` (lines 191-199) on a stream of `size` bytes:
read `10 * 1024 * 1024` bytes at a time, break on the empty read, write each
chunk.  Fuel `size + 1` always exceeds the number of reads performed. -/
def save_uploaded_chunked (size : Nat) : Nat × Nat :=
  saveChunks (size + 1) size

/-- C6, counterexample: persisting a 50 MiB stream performs 5 chunk writes,
not the 13 the claim derives from a 4 MiB chunk size — the routine's chunk
size is fixed at 10 MiB (line 194). -/
theorem C6_counterexample :
    (save_uploaded_chunked (50 * 1024 * 1024)).1 ≠ 13 := by
  decide

/-- C6, amended: persisting a 50 MiB uploaded byte stream through the chunked
save routine (fixed 10 MiB chunks) writes exactly 50 * 1024 * 1024 bytes in
exactly ceil(50/10) = 5 chunk writes, never materializing the full stream in
one buffer. -/
theorem C6_fifty_mib_five_writes :
    save_uploaded_chunked (50 * 1024 * 1024) = (5, 50 * 1024 * 1024) := by
  decide

/-! ### Acquisition engine (main.py, `smart_downloader`, lines 167-189)

The structured extractor (`yt_dlp`, lines 178-180) is an oracle
`extract : List Char → Option (List Char)`: `some path` is a successful
download returning `prepare_filename`, `none` is a raised exception.  The HTTP
layer of the fallback (line 184) is an oracle returning a status code and a
body; the body is then written in 1 MiB chunks (lines 185-187). -/

def CHUNK_1M : Nat := 1024 * 1024

structure HttpResponse where
  status : Nat
  body : List Nat

/-- The `for chunk in response.iter_content(chunk_size=1024*1024)` write loop
of lines 186-187: the bytes appended to the file, chunk by chunk, until the
iterator is exhausted. -/
def iterWrite : Nat → List Nat → List Nat
  | 0, _ => []
  | _ + 1, [] => []
  | fuel + 1, b => b.take CHUNK_1M ++ iterWrite fuel (b.drop CHUNK_1M)

/-- The bytes the fallback writes to disk for a response body. -/
def fallbackWrite (body : List Nat) : List Nat :=
  iterWrite (body.length + 1) body

def directDownloadName : List Char := "direct_download.mp4".toList

/-- `os.path.join(output_dir, name)` for a relative name. -/
def joinPath (dir name : List Char) : List Char :=
  dir ++ ('/' :: name)

/-- Substring containment, the Python `"http" in url` test (line 182). -/
def containsSub (needle : List Char) : List Char → Bool
  | [] => needle.isEmpty
  | c :: rest => needle.isPrefixOf (c :: rest) || containsSub needle rest

/-- The outcome of one `smart_downloader` run. -/
inductive DownloadResult where
  | extracted (path : List Char)
  | fallback (path : List Char) (written : List Nat)
deriving DecidableEq

def extractorFailedMsg : String := "yt-dlp extraction failed"

/-- `smart_downloader` (lines 167-189): try the structured extractor; on an
exception, if the URL contains the substring "http", stream the raw HTTP GET
body into `output_dir/direct_download.mp4` (the status code is never
inspected), else re-raise the extractor's exception. -/
def smart_downloader (extract : List Char → Option (List Char))
    (http : List Char → HttpResponse) (url output_dir : List Char) :
    Except String DownloadResult :=
  match extract url with
  | some f => Except.ok (DownloadResult.extracted f)
  | none =>
    if containsSub "http".toList url then
      Except.ok (DownloadResult.fallback (joinPath output_dir directDownloadName)
        (fallbackWrite (http url).body))
    else Except.error extractorFailedMsg

theorem iterWrite_eq_self (fuel : Nat) :
    ∀ body : List Nat, body.length ≤ fuel → iterWrite fuel body = body := by
  induction fuel with
  | zero =>
    intro body h
    rw [List.length_eq_zero.mp (Nat.le_zero.mp h)]
    rfl
  | succ n ih =>
    intro body h
    match body with
    | [] => rfl
    | x :: xs =>
      show (x :: xs).take CHUNK_1M ++ iterWrite n ((x :: xs).drop CHUNK_1M) = x :: xs
      rw [ih ((x :: xs).drop CHUNK_1M) (by
        have hc : 1 ≤ CHUNK_1M := by decide
        rw [List.length_drop]
        simp only [List.length_cons] at h ⊢
        omega)]
      exact List.take_append_drop CHUNK_1M (x :: xs)

/-- The fallback write loop reproduces the response body exactly. -/
theorem fallbackWrite_eq (body : List Nat) : fallbackWrite body = body :=
  iterWrite_eq_self (body.length + 1) body (Nat.le_succ _)

/-- Shared shape lemma: whenever the extractor fails and the URL contains
"http", `smart_downloader` succeeds with the fallback result, writing the
whole response body at the constant filename, regardless of the HTTP status. -/
theorem smart_downloader_fallback_eq (extract : List Char → Option (List Char))
    (http : List Char → HttpResponse) (url output_dir : List Char)
    (hx : extract url = none) (hu : containsSub "http".toList url = true) :
    smart_downloader extract http url output_dir =
      Except.ok (DownloadResult.fallback (joinPath output_dir directDownloadName)
        (http url).body) := by
  unfold smart_downloader
  rw [hx]
  simp only [hu, if_pos]
  rw [fallbackWrite_eq]

def cexUrl : List Char := "https://example.com/file".toList
def cexDir : List Char := "temp_workspace".toList

/-- C7, counterexample: with the extractor failing and the HTTP layer
answering status 404 with body [7, 7], the fallback download raises no error
at all — it writes the 404 response body to `direct_download.mp4` instead of
raising an AcquisitionError on the non-2xx status (no status check exists in
lines 183-188). -/
theorem C7_counterexample :
    smart_downloader (fun _ => none) (fun _ => HttpResponse.mk 404 [7, 7])
        cexUrl cexDir =
      Except.ok (DownloadResult.fallback (joinPath cexDir directDownloadName)
        [7, 7]) :=
  smart_downloader_fallback_eq (fun _ => none)
    (fun _ => HttpResponse.mk 404 [7, 7]) cexUrl cexDir rfl (by decide)

/-- C7, amended: the streamed fallback GET never inspects the HTTP status —
for every status code, including non-2xx ones, the response body is written in
fixed-size chunks to the workspace and the download reports success. -/
theorem C7_fallback_ignores_status (extract : List Char → Option (List Char))
    (http : List Char → HttpResponse) (url output_dir : List Char)
    (hx : extract url = none) (hu : containsSub "http".toList url = true) :
    smart_downloader extract http url output_dir =
      Except.ok (DownloadResult.fallback (joinPath output_dir directDownloadName)
        (http url).body) :=
  smart_downloader_fallback_eq extract http url output_dir hx hu

/-- C7 witness: the amended theorem applied to a concrete failing extractor, a
status-500 response with body [1, 2, 3], and a concrete URL and workspace. -/
theorem C7_witness :
    smart_downloader (fun _ => none) (fun _ => HttpResponse.mk 500 [1, 2, 3])
        cexUrl cexDir =
      Except.ok (DownloadResult.fallback (joinPath cexDir directDownloadName)
        [1, 2, 3]) :=
  C7_fallback_ignores_status (fun _ => none)
    (fun _ => HttpResponse.mk 500 [1, 2, 3]) cexUrl cexDir rfl (by decide)

/-- C10: whenever the structured extractor fails for a URL containing "http"
and the raw-stream fallback is taken, the bytes land at the single constant
path `output_dir/direct_download.mp4`, independent of the URL and of the
media's container type — two fallback acquisitions into the same workspace
target the same file. -/
theorem C10_fallback_constant_path (extract : List Char → Option (List Char))
    (http : List Char → HttpResponse) (url1 url2 output_dir : List Char)
    (hx1 : extract url1 = none) (hu1 : containsSub "http".toList url1 = true)
    (hx2 : extract url2 = none) (hu2 : containsSub "http".toList url2 = true) :
    ∃ w1 w2,
      smart_downloader extract http url1 output_dir =
        Except.ok (DownloadResult.fallback (joinPath output_dir directDownloadName) w1) ∧
      smart_downloader extract http url2 output_dir =
        Except.ok (DownloadResult.fallback (joinPath output_dir directDownloadName) w2) :=
  ⟨(http url1).body, (http url2).body,
    smart_downloader_fallback_eq extract http url1 output_dir hx1 hu1,
    smart_downloader_fallback_eq extract http url2 output_dir hx2 hu2⟩

def cexUrl2 : List Char := "http://other.example.net/media.wav".toList

/-- C10 witness: the theorem at two concrete distinct URLs with a failing
extractor and a fixed HTTP layer, in the same workspace. -/
theorem C10_witness :
    ∃ w1 w2,
      smart_downloader (fun _ => none) (fun _ => HttpResponse.mk 200 [9])
          cexUrl cexDir =
        Except.ok (DownloadResult.fallback (joinPath cexDir directDownloadName) w1) ∧
      smart_downloader (fun _ => none) (fun _ => HttpResponse.mk 200 [9])
          cexUrl2 cexDir =
        Except.ok (DownloadResult.fallback (joinPath cexDir directDownloadName) w2) :=
  C10_fallback_constant_path (fun _ => none) (fun _ => HttpResponse.mk 200 [9])
    cexUrl cexUrl2 cexDir rfl (by decide) rfl (by decide)

/-! ### Analysis orchestrator (main.py, `analyze_with_flash_lite`, lines 215-277,
and the analysis/render phases of `main`, lines 344-430)

A parsed JSON response is modelled as an association list from section keys to
lists of clip objects, a clip object being an association list from field names
to strings.  The remote generation endpoint is an oracle
`env : Nat → Option TopObj` giving, for each successive `generate_content`
call, the parse outcome of its response text: `some d` when `json.loads`
succeeds with object `d`, `none` when the text is malformed and `json.loads`
raises. -/

abbrev ClipObj := List (String × String)
abbrev TopObj := List (String × List ClipObj)

def coldOpenKey : String := "cold_open_clips"
def trailerKey : String := "trailer_structure"
def shortsKey : String := "viral_shorts"
def mistakesKey : String := "mistakes_log"
def jsonDecodeMsg : String := "Expecting value: line 1 column 1 (char 0)"

/-- One `model.generate_content(...)` call (line 273): consumes the next
response from the oracle and bumps the number of requests issued. -/
def generate_content (env : Nat → Option TopObj) (calls : Nat) :
    Option TopObj × Nat :=
  (env calls, calls + 1)

/-- `analyze_with_flash_lite` (lines 215-277): build the single combined
prompt, issue one structured request, and `json.loads` its text (line 277) —
a malformed response raises a JSONDecodeError.  The second component is the
total number of generation requests issued. -/
def analyze_with_flash_lite (env : Nat → Option TopObj) (calls : Nat) :
    Except String TopObj × Nat :=
  match generate_content env calls with
  | (none, calls2) => (Except.error jsonDecodeMsg, calls2)
  | (some d, calls2) => (Except.ok d, calls2)

/-- The display-ready result structure: the four sections read out of the
parsed response by lines 353, 375, 393 and 417 (`data.get(key, [])`). -/
structure ResultData where
  cold_open_clips : List ClipObj
  trailer_structure : List ClipObj
  viral_shorts : List ClipObj
  mistakes_log : List ClipObj
deriving DecidableEq

/-- `data.get(k, [])`: the section under key `k`, or the empty list. -/
def jget (data : TopObj) (k : String) : List ClipObj :=
  (List.lookup k data).getD []

def renderResults (data : TopObj) : ResultData :=
  ResultData.mk (jget data coldOpenKey) (jget data trailerKey)
    (jget data shortsKey) (jget data mistakesKey)

def executionHalted (e : String) : String := "Execution Halted: " ++ e

/-- The analysis and render phases of `main` (lines 344-437): run the single
analysis call inside the top-level `try`; an exception (such as the
JSONDecodeError from a malformed response) reaches the handler at lines
436-437, which shows "Execution Halted" and produces no results. -/
def mainAnalysis (env : Nat → Option TopObj) : Except String ResultData :=
  match (analyze_with_flash_lite env 0).1 with
  | Except.error e => Except.error (executionHalted e)
  | Except.ok data => Except.ok (renderResults data)

/-- C1, counterexample: a malformed (non-parseable) analysis response aborts
the whole pipeline — `json.loads` raises and the top-level handler reports
"Execution Halted" — so no ResultModel is produced at all: the issues section
is not populated from anything, contradicting the claimed per-agent
degradation. -/
theorem C1_counterexample :
    mainAnalysis (fun _ => none) = Except.error (executionHalted jsonDecodeMsg) := rfl

/-- C1, amended: there is only one analysis response, and a malformed one does
abort the pipeline: whenever the single response is non-parseable, the
JSONDecodeError propagates to the top-level handler and the run halts with an
"Execution Halted" message, producing no ResultModel (empty or otherwise). -/
theorem C1_parse_failure_halts_pipeline (env : Nat → Option TopObj)
    (h : env 0 = none) :
    mainAnalysis env = Except.error (executionHalted jsonDecodeMsg) := by
  simp [mainAnalysis, analyze_with_flash_lite, generate_content, h]

/-- C1 witness: the amended theorem applied to the oracle whose every response
is malformed. -/
theorem C1_witness :
    mainAnalysis (fun _ => Option.none) = Except.error (executionHalted jsonDecodeMsg) :=
  C1_parse_failure_halts_pipeline (fun _ => Option.none) rfl

/-- C2, counterexample: on a successfully processed handle with a parseable
response, the orchestrator has issued exactly 1 structured generation request
when analysis completes — not the 2 independent (creative and technical)
requests the claim describes. -/
theorem C2_counterexample :
    (analyze_with_flash_lite (fun _ => some ([] : TopObj)) 0).2 ≠ 2 := by
  decide

/-- C2, amended: for every successfully processed remote file handle the
orchestrator issues exactly ONE combined structured request, and that single
response's parsed object populates all four sections of the ResultModel —
there is no second request and no merge of partial reports. -/
theorem C2_single_combined_request (env : Nat → Option TopObj) (d : TopObj)
    (h : env 0 = some d) :
    (analyze_with_flash_lite env 0).2 = 1 ∧
      mainAnalysis env = Except.ok (renderResults d) := by
  constructor
  · simp [analyze_with_flash_lite, generate_content, h]
  · simp [mainAnalysis, analyze_with_flash_lite, generate_content, h]

def sampleIssue : ClipObj :=
  [("timestamp", "01:00"), ("error_type", "Silence"), ("description", "Dead air")]

def sampleTop : TopObj := [(mistakesKey, [sampleIssue])]

/-- C2 witness: the amended theorem at a concrete oracle answering the sample
parsed object on the first request. -/
theorem C2_witness :
    (analyze_with_flash_lite (fun _ => some sampleTop) 0).2 = 1 ∧
      mainAnalysis (fun _ => some sampleTop) = Except.ok (renderResults sampleTop) :=
  C2_single_combined_request (fun _ => some sampleTop) sampleTop rfl

/-! ### Per-clip field access in the render phase (main.py, lines 352-430) -/

def reasonKey : String := "reason"
def narrativeRoleKey : String := "narrative_role"
def clipDefault : String := "Clip"
def noneStr : String := "None"

/-- Python `clip.get(k)`: `None` when the key is absent. -/
def dictGet (clip : ClipObj) (k : String) : Option String :=
  List.lookup k clip

/-- The rationale value rendered for a cold-open clip, `clip.get('reason')`
(line 364; likewise lines 385 and 407 for the other sections). -/
def coldOpenReason (clip : ClipObj) : Option String :=
  dictGet clip reasonKey

/-- Python string interpolation of an optional value: `None` prints as the
four-character text "None". -/
def pyStr (o : Option String) : String :=
  match o with
  | none => noneStr
  | some s => s

/-- The narrative-role text of a trailer clip, `clip.get('narrative_role',
'Clip')` (line 381) — the one clip field that does get an explicit default. -/
def trailerNarrativeRole (clip : ClipObj) : String :=
  pyStr (some ((dictGet clip narrativeRoleKey).getD clipDefault))

def clipNoReason : ClipObj := [("start", "00:10"), ("end", "00:20"), ("text", "hello")]

/-- C9, counterexample: for a clip entry that omits the rationale sub-field,
the value the render phase reads for it is Python `None` (null) — not a
documented placeholder string — so the rationale field is effectively absent,
contradicting the claim. -/
theorem C9_counterexample : coldOpenReason clipNoReason = Option.none := rfl

/-- C9, amended: a clip-like entry that omits the rationale sub-field gets
Python `None` as its rationale, which the HTML card interpolates as the
literal text "None"; no documented placeholder exists for it.  Only the
narrative-role sub-field has an explicit default value ("Clip") when absent. -/
theorem C9_missing_rationale_yields_none (clip : ClipObj)
    (h1 : dictGet clip reasonKey = none)
    (h2 : dictGet clip narrativeRoleKey = none) :
    coldOpenReason clip = Option.none ∧
      pyStr (coldOpenReason clip) = noneStr ∧
      trailerNarrativeRole clip = clipDefault := by
  refine ⟨h1, ?_, ?_⟩
  · rw [coldOpenReason, h1]
    rfl
  · rw [trailerNarrativeRole, h2]
    rfl

/-- C9 witness: the amended theorem at the concrete clip entry that carries
only start, end and text. -/
theorem C9_witness :
    coldOpenReason clipNoReason = Option.none ∧
      pyStr (coldOpenReason clipNoReason) = noneStr ∧
      trailerNarrativeRole clipNoReason = clipDefault :=
  C9_missing_rationale_yields_none clipNoReason (by decide) (by decide)

end ViralPod
